import Mathlib

/-!
Verification of the ClickSpeak native launcher (`src/launcher.c`) and the
runtime provisioner (`scripts/install_app.sh`).

The C launcher and the shell provisioner are shallowly embedded as pure
functions over explicit world/state records:

* `LaunchWorld` abstracts the launcher's observations of its environment
  (`getenv`), the filesystem (`access`), and the outcomes of the embedded
  Python configuration calls (`Py_DecodeLocale`, `PyConfig_SetString`,
  `Py_InitializeFromConfig`) and of `fork` inside `show_error`.
* `HostState` abstracts what the provisioning shell script can observe:
  executability tests (`[ -x ]`), regular-file tests (`[ -f ]`), file
  contents (`cat`), the version an interpreter reports when invoked, and
  `command -v` lookups, plus the environment.

Provisioning is given an effect-trace semantics: `ensure_runtime` returns
the list of mutating/process effects it performs, and `applyEffect` says
how each effect transforms the observable `HostState`.
-/

/- ### Generic string helpers -/

/-- Boolean test that the first character list is an initial segment of the
second (used to model which paths `rm -rf dir` destroys). -/
def listStartsWith : List Char → List Char → Bool
  | [], _ => true
  | _ :: _, [] => false
  | a :: as, b :: bs => a == b && listStartsWith as bs

/-- `pathUnder dir p` holds when `p` is `dir` itself or lies strictly below
`dir` (has `dir ++ "/"` as an initial segment): the set of paths removed by
`rm -rf dir`. -/
def pathUnder (dir p : String) : Bool :=
  (dir == p) || listStartsWith (dir ++ "/").data p.data

/-- Strip trailing newline characters from a string: the effect shell command
substitution `$(cat file)` has on the file's raw contents. -/
def stripTrailingNL (s : String) : String :=
  ⟨(s.data.reverse.dropWhile (fun c => c == '\n')).reverse⟩

/- ### Launcher embedding (src/launcher.c) -/

/-- Observations the launcher process makes of its surrounding world.
`env` is `getenv`; `fs p = some c` means `access(p, F_OK) == 0` and the file
holds `c`; `exeResolved` is the result of `_NSGetExecutablePath`;
`decodeOk p` is whether `Py_DecodeLocale(p)` returns non-null;
`setStringOk` / `initOk` are whether `PyConfig_SetString` /
`Py_InitializeFromConfig` succeed; `forkOk` is whether `fork` inside
`show_error` succeeds. -/
structure LaunchWorld where
  env : String → Option String
  fs : String → Option String
  exeResolved : Option String
  decodeOk : String → Bool
  setStringOk : Bool
  initOk : Bool
  forkOk : Bool

/-- The launcher's terminal error conditions (src/launcher.c `main`). -/
inductive LauncherError where
  | NoHome
  | NoRuntimeDir
  | RuntimeNotProvisioned
  | RuntimeInitFailed
deriving DecidableEq

/-- What a failing launch did before exiting: which error, whether a line was
written to standard error, whether the `osascript` dialog child was spawned
and waited on, and the process exit code. -/
structure FailureInfo where
  err : LauncherError
  stderrWritten : Bool
  dialogShown : Bool
  dialogWaited : Bool
  dialogMsg : String
  exitCode : Nat
deriving DecidableEq

/-- The process configuration in force when the launcher reaches `Dispatch`:
the `setenv` calls made (in order), the working directory change, the
`PYTHONPATH` value, the embedded interpreter's configured executable,
the `parse_argv` / `site_import` flags, and the installed `sys.argv`. -/
structure LaunchConfig where
  envSets : List (String × String)
  cwd : Option String
  pythonpath : String
  configExecutable : Option String
  parseArgvFlag : Bool
  siteImportFlag : Bool
  sysArgv : List String
deriving DecidableEq

/-- Result of one launch up to (and excluding) running the application. -/
inductive LaunchResult where
  | failed : FailureInfo → LaunchResult
  | dispatched : LaunchConfig → LaunchResult
deriving DecidableEq

def LaunchResult.isDispatched : LaunchResult → Bool
  | .dispatched _ => true
  | .failed _ => false

/-- `configExecutable` of the dispatched configuration, `none` on failure. -/
def LaunchResult.dispatchedExe : LaunchResult → Option String
  | .dispatched c => c.configExecutable
  | .failed _ => none

/-- An environment variable counted only when set and non-empty, mirroring
the C idiom `if (env && *env) return env;`. -/
def nonEmptyEnv (env : String → Option String) (key : String) : Option String :=
  match env key with
  | some v => if v = "" then none else some v
  | none => none

/-- The fixed, ordered candidate suffixes probed by `find_project_dir`
(src/launcher.c lines 50-56). -/
def projectSuffixes : List String :=
  ["/projects/clickspeak", "/clickspeak", "/work/clickspeak",
   "/Workspace/clickspeak", "/Documents/clickspeak"]

/-- `find_project_dir` (src/launcher.c lines 42-66): the override variable if
set and non-empty, else the first home-relative candidate directory whose
`pyproject.toml` exists; `none` when `HOME` is unset or no probe hits. -/
def find_project_dir (env fs : String → Option String) : Option String :=
  match nonEmptyEnv env "CLICKSPEAK_PROJECT_DIR" with
  | some v => some v
  | none =>
    match env "HOME" with
    | none => none
    | some home =>
      (projectSuffixes.find? (fun suf => (fs (home ++ suf ++ "/pyproject.toml")).isSome)).map
        (fun suf => home ++ suf)

/-- `get_runtime_dir` (src/launcher.c lines 68-78): the override variable if
set and non-empty, else the fixed Application Support path under `HOME`;
`none` only when `HOME` is unset. -/
def get_runtime_dir (env : String → Option String) : Option String :=
  match nonEmptyEnv env "CLICKSPEAK_RUNTIME_DIR" with
  | some v => some v
  | none =>
    match env "HOME" with
    | none => none
    | some home => some (home ++ "/Library/Application Support/ClickSpeak/runtime")

/-- The `PYTHONPATH` string built at src/launcher.c lines 127-138: project
source directory (when a project is resolved) followed by the runtime's
site-packages, else site-packages alone. -/
def build_pythonpath (projectDir : Option String) (runtimeDir : String) : String :=
  match projectDir with
  | some p => p ++ "/src:" ++ runtimeDir ++ "/lib/python3.12/site-packages"
  | none => runtimeDir ++ "/lib/python3.12/site-packages"

/-- The `sys.argv` list installed at src/launcher.c lines 172-186: a copy of
the process argument vector with index 0 overwritten by the display name.
(On an empty vector the out-of-range `PyList_SetItem` leaves the empty list
unchanged.) -/
def build_sys_argv (argv : List String) : List String :=
  match argv with
  | [] => []
  | _ :: rest => "ClickSpeak" :: rest

/-- Outcome of `show_error` (src/launcher.c lines 25-40): the dialog child is
spawned and waited on exactly when `fork` succeeds. -/
def failureOf (w : LaunchWorld) (e : LauncherError) (stderrW : Bool) (msg : String) :
    FailureInfo :=
  ⟨e, stderrW, w.forkOk, w.forkOk, msg, 1⟩

/-- `main` of src/launcher.c up to the point where control passes to the
embedded application, as a pure function of the observed world and the
process argument vector. -/
def launcher_main (w : LaunchWorld) (argv : List String) : LaunchResult :=
  match w.env "HOME" with
  | none => .failed (failureOf w .NoHome false "HOME environment variable is not set.")
  | some _ =>
    match get_runtime_dir w.env with
    | none => .failed (failureOf w .NoRuntimeDir false
        "Could not determine ClickSpeak runtime directory.")
    | some runtimeDir =>
      if (w.fs (runtimeDir ++ "/.clickspeak-runtime")).isNone then
        .failed (failureOf w .RuntimeNotProvisioned false
          "ClickSpeak runtime not found. Re-run: bash scripts/install_app.sh")
      else
        let projectDir := find_project_dir w.env w.fs
        let pathVar := "/opt/homebrew/bin:/usr/local/bin:" ++
          ((w.env "PATH").getD "/usr/bin:/bin")
        let pythonpath := build_pythonpath projectDir runtimeDir
        let envSets :=
          [("PYTHONUNBUFFERED", "1"), ("PYTHONNOUSERSITE", "1"),
           ("PYTHONFAULTHANDLER", "1"),
           ("CLICKSPEAK_BUNDLE_IDENTIFIER", "com.lamosty.clickspeak"),
           ("CLICKSPEAK_APP_NAME", "ClickSpeak"),
           ("CLICKSPEAK_RUNTIME_DIR", runtimeDir)] ++
          (match w.exeResolved with
           | some p => [("CLICKSPEAK_APP_PATH", p)]
           | none => []) ++
          [("PATH", pathVar), ("PYTHONPATH", pythonpath)]
        let venvPython := runtimeDir ++ "/bin/python3"
        let cfgExe := if w.decodeOk venvPython then some venvPython else none
        if w.decodeOk venvPython && !w.setStringOk then
          .failed (failureOf w .RuntimeInitFailed true
            "Python initialization failed. Re-run: bash scripts/install_app.sh")
        else if !w.initOk then
          .failed (failureOf w .RuntimeInitFailed true
            "Python initialization failed. Re-run: bash scripts/install_app.sh")
        else
          .dispatched ⟨envSets, projectDir, pythonpath, cfgExe, false, true,
            build_sys_argv argv⟩

/-- Helper for witnesses: the dispatched configuration of a launch, with a
dummy default on failure. -/
def cfgOf (w : LaunchWorld) (argv : List String) : LaunchConfig :=
  match launcher_main w argv with
  | .dispatched c => c
  | .failed _ => ⟨[], none, "", none, true, true, []⟩

/- ### Provisioner embedding (scripts/install_app.sh) -/

/-- Observations the provisioning script makes of the host: the environment,
`[ -x path ]`, `[ -f path ]`, raw file contents (`cat`), the version string
an interpreter prints for
`-c 'import sys; print(f"{sys.version_info.major}.{sys.version_info.minor}")'`
(`none` when the invocation fails), and `command -v` lookups. -/
structure HostState where
  env : String → Option String
  isExecutable : String → Bool
  isRegularFile : String → Bool
  fileContent : String → Option String
  reportedVersion : String → Option String
  commandPath : String → Option String

/-- `REQUIRED_PYTHON_MAJOR` (scripts/install_app.sh line 12). -/
def requiredPythonMajor : Nat := 3

/-- `REQUIRED_PYTHON_MINOR` (scripts/install_app.sh line 13). -/
def requiredPythonMinor : Nat := 12

/-- The interpolation `"${REQUIRED_PYTHON_MAJOR}.${REQUIRED_PYTHON_MINOR}"`
used throughout the script. -/
def requiredVersionString : String :=
  toString requiredPythonMajor ++ "." ++ toString requiredPythonMinor

/-- `RUNTIME_DIR` (scripts/install_app.sh line 9). -/
def runtimeDirOf (home : String) : String :=
  home ++ "/Library/Application Support/ClickSpeak/runtime"

/-- `RUNTIME_PYTHON` (scripts/install_app.sh line 10). -/
def runtimePythonOf (home : String) : String :=
  runtimeDirOf home ++ "/bin/python3"

/-- `RUNTIME_MARKER_FILE` (scripts/install_app.sh line 11). -/
def markerFileName : String := ".clickspeak-runtime"

/-- `"${RUNTIME_DIR}/${RUNTIME_MARKER_FILE}"`. -/
def markerPathOf (home : String) : String :=
  runtimeDirOf home ++ "/" ++ markerFileName

/-- The result of shell command substitution over `cat path`: raw contents
with trailing newlines stripped, empty when the read fails
(`$(cat path 2>/dev/null || true)`). -/
def cmdSubstCat (s : HostState) (p : String) : String :=
  stripTrailingNL ((s.fileContent p).getD "")

/-- `python_is_supported` (scripts/install_app.sh lines 20-33): the candidate
is executable, its version probe succeeds, and the probed version equals the
required `major.minor`.  The successive early returns of the shell function
are the short-circuit conjunction below. -/
def python_is_supported (s : HostState) (p : String) : Bool :=
  s.isExecutable p &&
    match s.reportedVersion p with
    | none => false
    | some v => v == requiredVersionString

/-- `runtime_is_ready` (scripts/install_app.sh lines 60-76): venv python
executable, marker file present, marker content (as read by command
substitution) equal to the required version, and the venv python itself
supported.  The early returns are again a short-circuit conjunction. -/
def runtime_is_ready (s : HostState) (home : String) : Bool :=
  s.isExecutable (runtimePythonOf home) &&
  s.isRegularFile (markerPathOf home) &&
  (cmdSubstCat s (markerPathOf home) == requiredVersionString) &&
  python_is_supported s (runtimePythonOf home)

/-- A shell candidate: contributes itself only when present and non-empty,
mirroring the `[ -n "${...}" ] && candidates+=(...)` guards of
`resolve_host_python`. -/
def optCandidate : Option String → List String
  | some v => if v = "" then [] else [v]
  | none => []

/-- The candidate list assembled by `resolve_host_python`
(scripts/install_app.sh lines 39-48): explicit `CLICKSPEAK_HOST_PYTHON`
override first, then `command -v python3.12`, then `command -v python3`. -/
def candidateList (s : HostState) : List String :=
  optCandidate (s.env "CLICKSPEAK_HOST_PYTHON") ++
  optCandidate (s.commandPath "python3.12") ++
  optCandidate (s.commandPath "python3")

/-- `resolve_host_python` (scripts/install_app.sh lines 35-58): the first
candidate, in the fixed order above, accepted by `python_is_supported`. -/
def resolve_host_python (s : HostState) : Option String :=
  (candidateList s).find? (fun c => python_is_supported s c)

/-- Modelled from the spec: the bootstrap-interpreter selection rule as the
specification states it — check, in order, the explicit override, the
version-qualified discovered interpreter, the generically-named discovered
interpreter, and accept the first candidate whose reported version exactly
equals the required `major.minor`.  Used only to compare against
`resolve_host_python`. -/
def resolveHostPythonSpec (s : HostState) : Option String :=
  (optCandidate (s.env "CLICKSPEAK_HOST_PYTHON") ++
   optCandidate (s.commandPath "python3.12") ++
   optCandidate (s.commandPath "python3")).find?
    (fun c => s.reportedVersion c == some requiredVersionString)

/-- One mutating or interpreter-launching effect of provisioning.  Read-only
probes (`[ -x ]`, `[ -f ]`, `cat`, the version check) are state queries, not
effects. -/
inductive ProvisionEffect where
  | removeTree : String → ProvisionEffect
  | makeDir : String → ProvisionEffect
  | createVenv : String → String → ProvisionEffect
  | pipUpgrade : String → ProvisionEffect
  | pipInstallEditable : String → String → ProvisionEffect
  | writeMarker : String → String → ProvisionEffect
deriving DecidableEq

/-- Result of `ensure_runtime`: success with its ordered effect trace, or
the `RuntimeUnavailable` failure with the two lines it echoes. -/
inductive ProvisionResult where
  | ok : List ProvisionEffect → ProvisionResult
  | unavailable : List String → ProvisionResult
deriving DecidableEq

/-- The rebuild sequence of `ensure_runtime` (scripts/install_app.sh lines
93-100): delete the installation wholesale, recreate the directory, build
the venv from the bootstrap interpreter, upgrade pip, install the app in
editable mode, and write the version marker (content
`printf "%s\n" "$version"`) last. -/
def rebuildEffects (home proj bp : String) : List ProvisionEffect :=
  [.removeTree (runtimeDirOf home),
   .makeDir (runtimeDirOf home),
   .createVenv bp (runtimeDirOf home),
   .pipUpgrade (runtimePythonOf home),
   .pipInstallEditable (runtimePythonOf home) proj,
   .writeMarker (markerPathOf home) (requiredVersionString ++ "\n")]

/-- `ensure_runtime` (scripts/install_app.sh lines 78-101). -/
def ensure_runtime (s : HostState) (home proj : String) : ProvisionResult :=
  if runtime_is_ready s home then .ok []
  else
    match resolve_host_python s with
    | none => .unavailable
        ["[clickspeak] Could not locate a supported Python " ++
          requiredVersionString ++ " runtime.",
         "[clickspeak] Install Python " ++ requiredVersionString ++ " and re-run."]
    | some bp => .ok (rebuildEffects home proj bp)

/-- How each provisioning effect transforms the observable host state.
`removeTree d` destroys every observation at or below `d`.  `makeDir`
creates a bare directory (no regular file, no interpreter), so no modelled
observation changes.  `createVenv bp d` makes `d/bin/python3` an executable
interpreter reporting the bootstrap interpreter's version; a venv contains
no file named `.clickspeak-runtime`, so the marker observations are
untouched.  The two pip invocations populate site-packages only.
`writeMarker p c` creates the regular file `p` with contents `c`. -/
def applyEffect (s : HostState) : ProvisionEffect → HostState
  | .removeTree d =>
      { s with
        isExecutable := fun p => if pathUnder d p then false else s.isExecutable p,
        isRegularFile := fun p => if pathUnder d p then false else s.isRegularFile p,
        fileContent := fun p => if pathUnder d p then none else s.fileContent p,
        reportedVersion := fun p => if pathUnder d p then none else s.reportedVersion p }
  | .makeDir _ => s
  | .createVenv bp d =>
      { s with
        isExecutable := fun p => if p == d ++ "/bin/python3" then true else s.isExecutable p,
        reportedVersion := fun p =>
          if p == d ++ "/bin/python3" then s.reportedVersion bp else s.reportedVersion p }
  | .pipUpgrade _ => s
  | .pipInstallEditable _ _ => s
  | .writeMarker p c =>
      { s with
        isRegularFile := fun q => if q == p then true else s.isRegularFile q,
        fileContent := fun q => if q == p then some c else s.fileContent q }

/-- Running a prefix of the provisioning effects from a starting state. -/
def applyEffects (s : HostState) (es : List ProvisionEffect) : HostState :=
  es.foldl applyEffect s

/- ### Concrete worlds and states used by witnesses and counterexamples -/

/-- A world whose runtime marker is present but records version `2.7`. -/
def wMismatch : LaunchWorld :=
  { env := fun k => if k = "HOME" then some "/h"
      else if k = "CLICKSPEAK_RUNTIME_DIR" then some "/rt" else none,
    fs := fun p => if p = "/rt/.clickspeak-runtime" then some "2.7\n" else none,
    exeResolved := none,
    decodeOk := fun _ => true,
    setStringOk := true,
    initOk := true,
    forkOk := true }

/-- A world with `HOME` unset but both override variables set to usable
paths, and a provisioned runtime at the override location. -/
def wNoHome : LaunchWorld :=
  { env := fun k => if k = "CLICKSPEAK_RUNTIME_DIR" then some "/rt"
      else if k = "CLICKSPEAK_PROJECT_DIR" then some "/proj" else none,
    fs := fun p => if p = "/rt/.clickspeak-runtime" then some "3.12\n" else none,
    exeResolved := none,
    decodeOk := fun _ => true,
    setStringOk := true,
    initOk := true,
    forkOk := true }

/-- A fully healthy world with a resolved project directory. -/
def wProj : LaunchWorld :=
  { env := fun k => if k = "HOME" then some "/h"
      else if k = "CLICKSPEAK_RUNTIME_DIR" then some "/rt"
      else if k = "CLICKSPEAK_PROJECT_DIR" then some "/p" else none,
    fs := fun p => if p = "/rt/.clickspeak-runtime" then some "3.12\n" else none,
    exeResolved := none,
    decodeOk := fun _ => true,
    setStringOk := true,
    initOk := true,
    forkOk := true }

/-- A healthy world except that `Py_DecodeLocale` fails on every input and
`PyConfig_SetString` would fail if it were reached. -/
def wDecodeFail : LaunchWorld :=
  { env := fun k => if k = "HOME" then some "/h"
      else if k = "CLICKSPEAK_RUNTIME_DIR" then some "/rt" else none,
    fs := fun p => if p = "/rt/.clickspeak-runtime" then some "3.12\n" else none,
    exeResolved := none,
    decodeOk := fun _ => false,
    setStringOk := false,
    initOk := true,
    forkOk := true }

/-- A world with no provisioned runtime at all. -/
def wMarkerAbsent : LaunchWorld :=
  { env := fun k => if k = "HOME" then some "/h"
      else if k = "CLICKSPEAK_RUNTIME_DIR" then some "/rt" else none,
    fs := fun _ => none,
    exeResolved := none,
    decodeOk := fun _ => true,
    setStringOk := true,
    initOk := true,
    forkOk := true }

/-- Home directory used by the concrete host states. -/
def home0 : String := "/h"

/-- A host whose runtime installation is fully ready. -/
def sReady : HostState :=
  { env := fun _ => none,
    isExecutable := fun p => p == runtimePythonOf home0,
    isRegularFile := fun p => p == markerPathOf home0,
    fileContent := fun p => if p == markerPathOf home0 then some "3.12\n" else none,
    reportedVersion := fun p => if p == runtimePythonOf home0 then some "3.12" else none,
    commandPath := fun _ => none }

/-- The discovered bootstrap interpreter of `sHost`. -/
def bp0 : String := "/usr/local/bin/python3.12"

/-- A host with no runtime installation and one supported discovered
interpreter, `python3.12`, at `bp0`. -/
def sHost : HostState :=
  { env := fun _ => none,
    isExecutable := fun p => p == bp0,
    isRegularFile := fun _ => false,
    fileContent := fun _ => none,
    reportedVersion := fun p => if p == bp0 then some "3.12" else none,
    commandPath := fun c => if c = "python3.12" then some bp0 else none }

/- ### Helper lemmas -/

theorem listStartsWith_self_append (l t : List Char) :
    listStartsWith l (l ++ t) = true := by
  induction l with
  | nil => rfl
  | cons a as ih => simp [listStartsWith, ih]

theorem listStartsWith_append_left (l t₁ t₂ : List Char)
    (h : listStartsWith t₁ t₂ = true) :
    listStartsWith (l ++ t₁) (l ++ t₂) = true := by
  induction l with
  | nil => exact h
  | cons a as ih => simp [listStartsWith, ih]

theorem pathUnder_slash_append (d t : String) :
    pathUnder d (d ++ "/" ++ t) = true := by
  unfold pathUnder
  have h : (d ++ "/" ++ t).data = (d ++ "/").data ++ t.data := rfl
  rw [h, listStartsWith_self_append, Bool.or_true]

theorem pathUnder_of_slash (d suf : String)
    (h : listStartsWith "/".data suf.data = true) :
    pathUnder d (d ++ suf) = true := by
  unfold pathUnder
  have h1 : (d ++ "/").data = d.data ++ "/".data := rfl
  have h2 : (d ++ suf).data = d.data ++ suf.data := rfl
  rw [h1, h2, listStartsWith_append_left _ _ _ h, Bool.or_true]

theorem pathUnder_marker (home : String) :
    pathUnder (runtimeDirOf home) (markerPathOf home) = true := by
  unfold markerPathOf
  exact pathUnder_slash_append _ _

theorem pathUnder_runtime_python (home : String) :
    pathUnder (runtimeDirOf home) (runtimePythonOf home) = true := by
  unfold runtimePythonOf
  exact pathUnder_of_slash _ _ (by decide)

theorem stripTrailingNL_required :
    stripTrailingNL (requiredVersionString ++ "\n") = requiredVersionString := by
  decide

theorem find?_congr_mem {α : Type} (l : List α) (p q : α → Bool)
    (h : ∀ a ∈ l, p a = q a) : l.find? p = l.find? q := by
  induction l with
  | nil => rfl
  | cons a as ih =>
    simp only [List.find?]
    rw [h a (List.mem_cons_self a as)]
    cases q a
    · exact ih (fun b hb => h b (List.mem_cons_of_mem a hb))
    · rfl

/-- Inversion: everything a dispatched launch determines about the final
configuration, read off the branch structure of `launcher_main`. -/
theorem launcher_main_dispatched_inv (w : LaunchWorld) (argv : List String)
    (cfg : LaunchConfig) (hd : launcher_main w argv = .dispatched cfg) :
    ∃ rdir, get_runtime_dir w.env = some rdir ∧
      cfg.pythonpath = build_pythonpath (find_project_dir w.env w.fs) rdir ∧
      cfg.sysArgv = build_sys_argv argv ∧
      cfg.cwd = find_project_dir w.env w.fs := by
  simp only [launcher_main] at hd
  split at hd
  · exact absurd hd (by simp)
  · split at hd
    · exact absurd hd (by simp)
    · rename_i runtimeDir heq
      split at hd
      · exact absurd hd (by simp)
      · split at hd
        · exact absurd hd (by simp)
        · split at hd
          · exact absurd hd (by simp)
          · cases hd
            exact ⟨runtimeDir, heq, rfl, rfl, rfl⟩

/- ### Claim theorems -/

/-- C1 (counterexample): a runtime whose marker file is present but records
the mismatched version `2.7` does not fail `ValidateRuntime`; the launch
proceeds all the way to dispatch. -/
theorem marker_content_ignored_cex :
    wMismatch.fs "/rt/.clickspeak-runtime" = some "2.7\n" ∧
    stripTrailingNL "2.7\n" ≠ requiredVersionString ∧
    (launcher_main wMismatch
      ["/Applications/ClickSpeak.app/Contents/MacOS/ClickSpeak"]).isDispatched = true := by
  decide

/-- C1 (amended): the launcher's `ValidateRuntime` step checks only that the
marker file exists under the resolved runtime directory — given a determined
home and runtime directory, the launch fails with `RuntimeNotProvisioned`
(dialog shown and waited on when the fork succeeds, exit code 1) iff the
marker file is absent; its content and the interpreter are not examined. -/
theorem validateRuntime_checks_marker_existence_only
    (w : LaunchWorld) (argv : List String) (h rdir : String)
    (hh : w.env "HOME" = some h)
    (hr : get_runtime_dir w.env = some rdir) :
    launcher_main w argv = .failed (failureOf w .RuntimeNotProvisioned false
        "ClickSpeak runtime not found. Re-run: bash scripts/install_app.sh")
    ↔ w.fs (rdir ++ "/.clickspeak-runtime") = none := by
  unfold launcher_main
  rw [hh, hr]
  by_cases hm : w.fs (rdir ++ "/.clickspeak-runtime") = none
  · simp [hm]
  · have hm' : (w.fs (rdir ++ "/.clickspeak-runtime")).isNone = false := by
      cases hx : w.fs (rdir ++ "/.clickspeak-runtime") with
      | none => exact absurd hx hm
      | some v => rfl
    simp only [hm', Bool.false_eq_true, if_false]
    constructor
    · intro hfail
      exfalso
      split at hfail
      · simp [failureOf] at hfail
      · split at hfail
        · simp [failureOf] at hfail
        · simp at hfail
    · intro hnone
      exact absurd hnone hm

/-- C1 (witness for the amended-claim theorem). -/
theorem validateRuntime_checks_marker_existence_only_witness :
    launcher_main wMarkerAbsent ["/a/ClickSpeak"] =
      .failed ⟨.RuntimeNotProvisioned, false, true, true,
        "ClickSpeak runtime not found. Re-run: bash scripts/install_app.sh", 1⟩ :=
  (validateRuntime_checks_marker_existence_only wMarkerAbsent ["/a/ClickSpeak"]
    "/h" "/rt" rfl rfl).mpr rfl

/-- C2 (counterexample): with `HOME` unset the launcher fails with `NoHome`,
shows and waits on the dialog and exits 1, but writes nothing to the
standard error stream — the claim that both channels are used for every
launcher-level error is false. -/
theorem noHome_dialog_without_stderr_cex :
    launcher_main wNoHome ["/a/ClickSpeak"] =
      .failed ⟨.NoHome, false, true, true,
        "HOME environment variable is not set.", 1⟩ := by
  decide

/-- C2 (amended): every launcher-level failure spawns and waits on the
native dialog (whenever the fork succeeds) and exits with code 1, but the
standard error stream is additionally written only for `RuntimeInitFailed`;
`NoHome` and `RuntimeNotProvisioned` are surfaced through the dialog
alone. -/
theorem failure_reporting_channels (w : LaunchWorld) (argv : List String)
    (fi : FailureInfo) (h : launcher_main w argv = .failed fi) :
    fi.dialogShown = w.forkOk ∧ fi.dialogWaited = w.forkOk ∧ fi.exitCode = 1 ∧
    (fi.stderrWritten = true ↔ fi.err = .RuntimeInitFailed) := by
  simp only [launcher_main] at h
  split at h
  · cases h; simp [failureOf]
  · split at h
    · cases h; simp [failureOf]
    · split at h
      · cases h; simp [failureOf]
      · split at h
        · cases h; simp [failureOf]
        · split at h
          · cases h; simp [failureOf]
          · simp at h

/-- C2 (witness for the amended-claim theorem). -/
theorem failure_reporting_channels_witness :
    (true : Bool) = wNoHome.forkOk ∧ (true : Bool) = wNoHome.forkOk ∧
    (1 : Nat) = 1 ∧ ((false : Bool) = true ↔ LauncherError.NoHome = .RuntimeInitFailed) :=
  failure_reporting_channels wNoHome ["/a/ClickSpeak"]
    ⟨.NoHome, false, true, true, "HOME environment variable is not set.", 1⟩ rfl

/-- C7: whenever the launcher reaches dispatch, the `PYTHONPATH` it installed
lists the project's `src` directory strictly before the runtime's
site-packages directory when a project location was resolved, and consists
of the runtime's site-packages directory alone when none was. -/
theorem pythonpath_order (w : LaunchWorld) (argv : List String)
    (rdir : String) (cfg : LaunchConfig)
    (hr : get_runtime_dir w.env = some rdir)
    (hd : launcher_main w argv = .dispatched cfg) :
    (∀ p, find_project_dir w.env w.fs = some p →
        cfg.pythonpath = p ++ "/src:" ++ rdir ++ "/lib/python3.12/site-packages") ∧
    (find_project_dir w.env w.fs = none →
        cfg.pythonpath = rdir ++ "/lib/python3.12/site-packages") := by
  obtain ⟨rdir', hr', hpy, _, _⟩ := launcher_main_dispatched_inv w argv cfg hd
  rw [hr] at hr'
  cases hr'
  constructor
  · intro p hp
    rw [hpy, hp]
    rfl
  · intro hp
    rw [hpy, hp]
    rfl

/-- C7 (witness). -/
theorem pythonpath_order_witness :
    (cfgOf wProj ["/a/ClickSpeak"]).pythonpath =
      "/p" ++ "/src:" ++ "/rt" ++ "/lib/python3.12/site-packages" :=
  (pythonpath_order wProj ["/a/ClickSpeak"] "/rt" (cfgOf wProj ["/a/ClickSpeak"])
    rfl rfl).1 "/p" rfl

/-- C8: for a non-empty process argument vector of length `n`, the `sys.argv`
the launcher installs has length `n`, element 0 equal to the display name
`"ClickSpeak"` regardless of the binary path, and every element at indices
1 through `n-1` equal to the corresponding original argument; and whatever
configuration a launch dispatches with carries exactly this list. -/
theorem sys_argv_marshalling (argv : List String) (h : argv ≠ []) :
    (build_sys_argv argv).length = argv.length ∧
    (build_sys_argv argv).head? = some "ClickSpeak" ∧
    (∀ i, 1 ≤ i → i < argv.length → (build_sys_argv argv)[i]? = argv[i]?) ∧
    (∀ w cfg, launcher_main w argv = .dispatched cfg →
        cfg.sysArgv = build_sys_argv argv) := by
  obtain ⟨a, rest, rfl⟩ := List.exists_cons_of_ne_nil h
  refine ⟨by simp [build_sys_argv], by simp [build_sys_argv], ?_, ?_⟩
  · intro i h1 h2
    match i, h1 with
    | Nat.succ j, _ => simp [build_sys_argv]
  · intro w cfg hd
    obtain ⟨_, _, _, hargv, _⟩ := launcher_main_dispatched_inv w _ cfg hd
    exact hargv

/-- C8 (witness): with arguments `["/a/ClickSpeak", "--check-permissions"]`,
index 1 of the installed list is preserved. -/
theorem sys_argv_marshalling_witness :
    (build_sys_argv ["/a/ClickSpeak", "--check-permissions"])[1]? =
      ["/a/ClickSpeak", "--check-permissions"][1]? :=
  (sys_argv_marshalling ["/a/ClickSpeak", "--check-permissions"]
    (by decide)).2.2.1 1 (by decide) (by decide)

/-- C9: if `HOME` is unset, the launcher fails with `NoHome` and exit code 1
even when both the runtime-root and project-root overrides are set to
usable (non-empty) values — values under which the runtime and project
directories would otherwise resolve, as the last two conjuncts show. -/
theorem home_check_precedes_overrides (w : LaunchWorld) (argv : List String)
    (r p : String)
    (hh : w.env "HOME" = none)
    (hr : w.env "CLICKSPEAK_RUNTIME_DIR" = some r) (hrne : r ≠ "")
    (hp : w.env "CLICKSPEAK_PROJECT_DIR" = some p) (hpne : p ≠ "") :
    launcher_main w argv =
      .failed (failureOf w .NoHome false "HOME environment variable is not set.") ∧
    get_runtime_dir w.env = some r ∧
    find_project_dir w.env w.fs = some p := by
  refine ⟨?_, ?_, ?_⟩
  · unfold launcher_main
    rw [hh]
  · unfold get_runtime_dir nonEmptyEnv
    rw [hr]
    simp [hrne]
  · unfold find_project_dir nonEmptyEnv
    rw [hp]
    simp [hpne]

/-- C9 (witness). -/
theorem home_check_precedes_overrides_witness :
    launcher_main wNoHome ["/a/ClickSpeak", "--check-permissions"] =
      .failed (failureOf wNoHome .NoHome false
        "HOME environment variable is not set.") ∧
    get_runtime_dir wNoHome.env = some "/rt" ∧
    find_project_dir wNoHome.env wNoHome.fs = some "/proj" :=
  home_check_precedes_overrides wNoHome ["/a/ClickSpeak", "--check-permissions"]
    "/rt" "/proj" rfl rfl (by decide) rfl (by decide)

/-- C10: when decoding the venv interpreter path fails (`Py_DecodeLocale`
returns null), the launcher silently skips configuring the embedded
executable — the dispatched configuration carries none — and still reaches
dispatch rather than failing with `RuntimeInitFailed`, for every value of
the (skipped) `PyConfig_SetString` outcome. -/
theorem decode_failure_best_effort (w : LaunchWorld) (argv : List String)
    (h rdir : String)
    (hh : w.env "HOME" = some h)
    (hr : get_runtime_dir w.env = some rdir)
    (hm : (w.fs (rdir ++ "/.clickspeak-runtime")).isSome = true)
    (hdec : w.decodeOk (rdir ++ "/bin/python3") = false)
    (hinit : w.initOk = true) :
    (launcher_main w argv).isDispatched = true ∧
    (launcher_main w argv).dispatchedExe = none := by
  have hm' : (w.fs (rdir ++ "/.clickspeak-runtime")).isNone = false := by
    cases hx : w.fs (rdir ++ "/.clickspeak-runtime") with
    | none => rw [hx] at hm; simp at hm
    | some v => rfl
  unfold launcher_main
  rw [hh, hr]
  simp [hm', hdec, hinit, LaunchResult.isDispatched, LaunchResult.dispatchedExe]

/-- C10 (witness): in `wDecodeFail` even `PyConfig_SetString` would fail,
yet the launch dispatches with no configured executable. -/
theorem decode_failure_best_effort_witness :
    (launcher_main wDecodeFail ["/a/ClickSpeak"]).isDispatched = true ∧
    (launcher_main wDecodeFail ["/a/ClickSpeak"]).dispatchedExe = none :=
  decode_failure_best_effort wDecodeFail ["/a/ClickSpeak"] "/h" "/rt"
    rfl rfl (by decide) rfl rfl

/-- C3: the provisioner's readiness predicate holds iff the venv interpreter
is present and executable, the marker file exists, the marker's recorded
version equals the required `major.minor`, and the interpreter's own
reported version equals that same required version. -/
theorem runtime_ready_iff (s : HostState) (home : String) :
    runtime_is_ready s home = true ↔
      (s.isExecutable (runtimePythonOf home) = true ∧
       s.isRegularFile (markerPathOf home) = true ∧
       cmdSubstCat s (markerPathOf home) = requiredVersionString ∧
       s.reportedVersion (runtimePythonOf home) = some requiredVersionString) := by
  unfold runtime_is_ready python_is_supported
  cases hrep : s.reportedVersion (runtimePythonOf home) with
  | none => simp [Bool.and_eq_true]
  | some v =>
    simp only [Bool.and_eq_true, beq_iff_eq, Option.some.injEq]
    tauto

/-- C4: when the installation already satisfies the ready invariant,
`ensure_runtime` succeeds with an empty effect trace — no filesystem writes
and no interpreter invocations beyond the read-only version probe inside
the readiness check — so provisioning is idempotent. -/
theorem ensure_runtime_noop_when_ready (s : HostState) (home proj : String)
    (h : runtime_is_ready s home = true) :
    ensure_runtime s home proj = .ok [] := by
  simp [ensure_runtime, h]

/-- C4 (witness). -/
theorem ensure_runtime_noop_when_ready_witness :
    ensure_runtime sReady home0 "/proj" = .ok [] :=
  ensure_runtime_noop_when_ready sReady home0 "/proj" (by decide)

/-- C6: on a host where a version report implies executability (no candidate
reports a version without being runnable), the provisioner's bootstrap
selection equals the specified rule — try the explicit override, then the
discovered `python3.12`, then the discovered `python3`, accepting the first
candidate reporting exactly the required `major.minor`; a selected candidate
is always supported and drives the rebuild, and if none qualifies (and the
installation is not ready) provisioning fails with the `RuntimeUnavailable`
messages listing the required version. -/
theorem bootstrap_resolution_order (s : HostState) (home proj : String)
    (hnr : runtime_is_ready s home = false)
    (hsane : ∀ c ∈ candidateList s,
        s.reportedVersion c ≠ none → s.isExecutable c = true) :
    resolve_host_python s = resolveHostPythonSpec s ∧
    (∀ bp, resolve_host_python s = some bp →
        python_is_supported s bp = true ∧
        ensure_runtime s home proj = .ok (rebuildEffects home proj bp)) ∧
    (resolve_host_python s = none →
        ensure_runtime s home proj = .unavailable
          ["[clickspeak] Could not locate a supported Python " ++
            requiredVersionString ++ " runtime.",
           "[clickspeak] Install Python " ++ requiredVersionString ++
            " and re-run."]) := by
  refine ⟨?_, ?_, ?_⟩
  · unfold resolve_host_python resolveHostPythonSpec candidateList
    apply find?_congr_mem
    intro c hc
    unfold python_is_supported
    cases hrep : s.reportedVersion c with
    | none => simp
    | some v =>
      have hex : s.isExecutable c = true := by
        apply hsane c
        · exact hc
        · rw [hrep]
          simp
      rw [hex]
      simp only [Bool.true_and]
      rfl
  · intro bp hbp
    exact ⟨List.find?_some hbp, by simp [ensure_runtime, hnr, hbp]⟩
  · intro hn
    simp [ensure_runtime, hnr, hn]

/-- C6 (witness): on `sHost` the discovered `python3.12` drives the
rebuild. -/
theorem bootstrap_resolution_order_witness :
    python_is_supported sHost bp0 = true ∧
    ensure_runtime sHost home0 "/proj" = .ok (rebuildEffects home0 "/proj" bp0) :=
  (bootstrap_resolution_order sHost home0 "/proj" (by decide) (by decide)).2.1
    bp0 (by decide)

/-- C5: a rebuild deletes the old installation first, writes the marker
last, and after every proper prefix of its effect sequence the installation
fails the ready invariant (for non-empty prefixes, because the marker is
absent), while the full sequence leaves a ready installation — so marker
presence certifies completed provisioning and no partially provisioned
directory is ever ready.  `bp` is the selected bootstrap interpreter, which
lies outside the runtime directory. -/
theorem marker_write_last_crash_safety (s : HostState) (home proj bp : String)
    (hnr : runtime_is_ready s home = false)
    (hres : resolve_host_python s = some bp)
    (hout : pathUnder (runtimeDirOf home) bp = false) :
    ensure_runtime s home proj = .ok (rebuildEffects home proj bp) ∧
    (rebuildEffects home proj bp).head? = some (.removeTree (runtimeDirOf home)) ∧
    (rebuildEffects home proj bp).getLast? =
      some (.writeMarker (markerPathOf home) (requiredVersionString ++ "\n")) ∧
    (∀ k, 1 ≤ k → k < (rebuildEffects home proj bp).length →
        (applyEffects s ((rebuildEffects home proj bp).take k)).isRegularFile
          (markerPathOf home) = false) ∧
    (∀ k, k < (rebuildEffects home proj bp).length →
        runtime_is_ready (applyEffects s ((rebuildEffects home proj bp).take k))
          home = false) ∧
    runtime_is_ready (applyEffects s (rebuildEffects home proj bp)) home = true := by
  have hm : pathUnder (runtimeDirOf home) (markerPathOf home) = true :=
    pathUnder_marker home
  have hsup : python_is_supported s bp = true := List.find?_some hres
  have hmarker : ∀ k, 1 ≤ k → k < (rebuildEffects home proj bp).length →
      (applyEffects s ((rebuildEffects home proj bp).take k)).isRegularFile
        (markerPathOf home) = false := by
    intro k h1 hk
    simp only [rebuildEffects, List.length_cons, List.length_nil] at hk
    interval_cases k
    all_goals
      simp [rebuildEffects, applyEffects, applyEffect, hm]
  refine ⟨by simp [ensure_runtime, hnr, hres], rfl, rfl, hmarker, ?_, ?_⟩
  · intro k hk
    match k, hk with
    | 0, _ => exact hnr
    | Nat.succ j, hk =>
      have hf := hmarker (j + 1) (Nat.le_add_left 1 j) hk
      unfold runtime_is_ready
      rw [hf]
      simp
  · obtain ⟨hex, v, hv, hveq⟩ :
        s.isExecutable bp = true ∧
        ∃ v, s.reportedVersion bp = some v ∧ v = requiredVersionString := by
      unfold python_is_supported at hsup
      rw [Bool.and_eq_true] at hsup
      refine ⟨hsup.1, ?_⟩
      cases hv : s.reportedVersion bp with
      | none => rw [hv] at hsup; simp at hsup
      | some v =>
        rw [hv] at hsup
        exact ⟨v, rfl, by have := hsup.2; simpa [beq_iff_eq] using this⟩
    simp [rebuildEffects, applyEffects, applyEffect, runtime_is_ready,
      python_is_supported, cmdSubstCat, runtimePythonOf, hout, hv, hveq,
      stripTrailingNL_required]

/-- C5 (witness): running the full rebuild on the empty host `sHost` leaves
a ready installation. -/
theorem marker_write_last_crash_safety_witness :
    runtime_is_ready (applyEffects sHost (rebuildEffects home0 "/proj" bp0))
      home0 = true :=
  (marker_write_last_crash_safety sHost home0 "/proj" bp0 (by decide) (by decide)
    (by decide)).2.2.2.2.2
